import Mathlib

/-!
Verification development for the compliance core of the `nkase` dashboard
(`src/shared/schema.ts`, `src/server/storage.ts`, `src/server/routes.ts`).

The relational rows are embedded as Lean structures, one field per column
that the compliance core ever reads or writes (columns that no verified
routine touches, e.g. `description` or `remediationSteps`, are elided).
`timestamp` columns are modelled as `Nat` clock values; the current time
(`new Date()` in the source) is passed in explicitly as a `now` argument.
`jsonb` metadata is modelled by the single key the code inspects
(`metadata.provider`).  A database table is a `List` of rows; a `serial`
primary key is modelled by a `next…Id` counter in the store.
-/

namespace Nkase

/-- Row of `resources` (schema.ts `resources` table). -/
structure Resource where
  id : Nat
  resourceId : String
  resourceType : String
  name : String
  region : String
  status : String
  /-- the `provider` key of the `metadata` jsonb column, when present -/
  metadataProvider : Option String
  isolated : Bool
  forensicCopy : Bool
  discoveredAt : Nat
deriving DecidableEq

/-- Row of `cloud_accounts`. -/
structure CloudAccount where
  id : Nat
  accountId : String
  provider : String
  name : String
  status : String
  ownerEmail : Option String
  createdAt : Nat
  lastScannedAt : Option Nat
deriving DecidableEq

/-- Row of `compliance_standards`. -/
structure ComplianceStandard where
  id : Nat
  name : String
  displayName : String
  version : String
  enabled : Bool
deriving DecidableEq

/-- Row of `compliance_rules`.  The nullable `text[]` columns
`resource_types` and `providers` are modelled as `List String` (a SQL NULL
would make the aggregator's `.includes` calls throw in the source, so every
live row carries an array; the empty array is representable). -/
structure ComplianceRule where
  id : Nat
  standardId : Nat
  ruleId : String
  title : String
  severity : String
  resourceTypes : List String
  action : String
  enabled : Bool
  providers : List String
deriving DecidableEq

/-- Row of `resource_compliance`.  `details` is modelled by the single
`message` key the aggregator writes. -/
structure ResourceCompliance where
  id : Nat
  resourceId : Nat
  ruleId : Nat
  status : String
  lastChecked : Nat
  detailsMessage : Option String
  exemptionReason : Option String
  exemptionExpiry : Option Nat
  exemptedBy : Option Nat
  exemptedAt : Option Nat
deriving DecidableEq

/-- Row of `account_compliance`. -/
structure AccountCompliance where
  id : Nat
  accountId : Nat
  standardId : Nat
  compliantRules : Nat
  nonCompliantRules : Nat
  exemptedRules : Nat
  notApplicableRules : Nat
  lastScanned : Nat
  overallStatus : String
deriving DecidableEq

/-- The database state touched by the compliance core. -/
structure Store where
  resources : List Resource
  cloudAccounts : List CloudAccount
  complianceStandards : List ComplianceStandard
  complianceRules : List ComplianceRule
  resourceCompliance : List ResourceCompliance
  accountCompliance : List AccountCompliance
  /-- next value of the `resource_compliance.id` serial column -/
  nextRcId : Nat
deriving DecidableEq

/-- storage.ts `getComplianceStandard`: `select … where eq(id)`, first row. -/
def getComplianceStandard (s : Store) (id : Nat) : Option ComplianceStandard :=
  s.complianceStandards.find? (fun st => st.id == id)

/-- storage.ts `getCloudAccount`: `select … where eq(id)`, first row. -/
def getCloudAccount (s : Store) (id : Nat) : Option CloudAccount :=
  s.cloudAccounts.find? (fun a => a.id == id)

/-- storage.ts `getResources` with no filters: all rows.  (The source
additionally orders by `discoveredAt` descending; the model keeps table
order, since a table's row order is arbitrary and every verified property
is order-insensitive.) -/
def getResources (s : Store) : List Resource :=
  s.resources

/-- storage.ts `getComplianceRules { standardId }`:
`select … where eq(standardId)`. -/
def getComplianceRulesForStandard (s : Store) (standardId : Nat) : List ComplianceRule :=
  s.complianceRules.filter (fun r => r.standardId == standardId)

/-- storage.ts `getResourceComplianceByResourceAndRule`:
`select … where and(eq(resourceId), eq(ruleId))`, first row. -/
def getResourceComplianceByResourceAndRule (s : Store) (resourceId ruleId : Nat) :
    Option ResourceCompliance :=
  s.resourceCompliance.find? (fun c => c.resourceId == resourceId && c.ruleId == ruleId)

/-- storage.ts `getAccountComplianceByAccountAndStandard`. -/
def getAccountComplianceByAccountAndStandard (s : Store) (accountId standardId : Nat) :
    Option AccountCompliance :=
  s.accountCompliance.find? (fun a => a.accountId == accountId && a.standardId == standardId)

/-- The aggregator's applicability test (storage.ts
`calculateAccountCompliance`, the two `continue` guards of the inner loop):
`rule.resourceTypes.includes(resource.resourceType)` and
`rule.providers.includes(account.provider)`. -/
def ruleApplies (rule : ComplianceRule) (r : Resource) (account : CloudAccount) : Bool :=
  rule.resourceTypes.contains r.resourceType && rule.providers.contains account.provider

/-- The `/compliance/summary` route's per-account applicability test
(routes.ts `accountEnforcement` loop):
`if (!rule.providers || rule.providers.length === 0) return true;
 return rule.providers.includes(account.provider);`. -/
def summaryRuleApplies (rule : ComplianceRule) (account : CloudAccount) : Bool :=
  rule.providers.isEmpty || rule.providers.contains account.provider

/-- The four tally counters of `calculateAccountCompliance`. -/
structure Counts where
  compliant : Nat
  nonCompliant : Nat
  exempted : Nat
  notApplicable : Nat
deriving DecidableEq

def Counts.total (k : Counts) : Nat :=
  k.compliant + k.nonCompliant + k.exempted + k.notApplicable

/-- The `switch (compliance.status)` of the aggregator: bump the counter of
the stored status; a status outside the four cases bumps nothing (the
switch has no default branch). -/
def tallyStatus (st : String) (k : Counts) : Counts :=
  if st = "compliant" then { k with compliant := k.compliant + 1 }
  else if st = "non_compliant" then { k with nonCompliant := k.nonCompliant + 1 }
  else if st = "exempted" then { k with exempted := k.exempted + 1 }
  else if st = "not_applicable" then { k with notApplicable := k.notApplicable + 1 }
  else k

/-- storage.ts `createResourceCompliance`, specialised to the aggregator's
call site: insert a row with the given keys, status `non_compliant`,
`lastChecked = now`, `details = {message: "Initial compliance check"}`;
the exemption columns take their schema default NULL. -/
def createResourceCompliance (s : Store) (resourceId ruleId now : Nat) : Store :=
  { s with
    resourceCompliance := s.resourceCompliance ++
      [{ id := s.nextRcId
         resourceId := resourceId
         ruleId := ruleId
         status := "non_compliant"
         lastChecked := now
         detailsMessage := some "Initial compliance check"
         exemptionReason := none
         exemptionExpiry := none
         exemptedBy := none
         exemptedAt := none }]
    nextRcId := s.nextRcId + 1 }

/-- Body of the aggregator's inner loop for one (resource, rule) pair:
not applicable ⇒ `notApplicableCount++`; applicable with no existing row ⇒
create the default row and `nonCompliantCount++`; applicable with a row ⇒
tally its stored status. -/
def evalPair (account : CloudAccount) (now : Nat) (r : Resource) (rule : ComplianceRule)
    (sk : Store × Counts) : Store × Counts :=
  if ruleApplies rule r account then
    match getResourceComplianceByResourceAndRule sk.1 r.id rule.id with
    | none =>
        (createResourceCompliance sk.1 r.id rule.id now,
         { sk.2 with nonCompliant := sk.2.nonCompliant + 1 })
    | some c => (sk.1, tallyStatus c.status sk.2)
  else
    (sk.1, { sk.2 with notApplicable := sk.2.notApplicable + 1 })

/-- The aggregator's inner loop: fold `evalPair` over the standard's rules. -/
def aggregateRules (account : CloudAccount) (now : Nat) (r : Resource)
    (rules : List ComplianceRule) (sk : Store × Counts) : Store × Counts :=
  rules.foldl (fun sk rule => evalPair account now r rule sk) sk

/-- The aggregator's outer loop: fold the inner loop over all resources. -/
def aggregateResources (account : CloudAccount) (now : Nat) (resources : List Resource)
    (rules : List ComplianceRule) (sk : Store × Counts) : Store × Counts :=
  resources.foldl (fun sk r => aggregateRules account now r rules sk) sk

/-- `const overallStatus = nonCompliantCount === 0 ? "compliant" : "non_compliant"`. -/
def overallStatusOf (k : Counts) : String :=
  if k.nonCompliant = 0 then "compliant" else "non_compliant"

/-- storage.ts `updateAccountCompliance`, specialised to the aggregator's
call site: `update account_compliance set counts/lastScanned/overallStatus
where eq(id) returning`, and the caller destructures the first returned
row. -/
def updateAccountCompliance (s : Store) (id : Nat) (k : Counts) (now : Nat)
    (overall : String) : Option AccountCompliance × Store :=
  let upd := fun (a : AccountCompliance) =>
    if a.id == id then
      { a with
        compliantRules := k.compliant
        nonCompliantRules := k.nonCompliant
        exemptedRules := k.exempted
        notApplicableRules := k.notApplicable
        lastScanned := now
        overallStatus := overall }
    else a
  let rows := s.accountCompliance.map upd
  ((rows.filter (fun a => a.id == id)).head?, { s with accountCompliance := rows })

/-- storage.ts `calculateAccountCompliance`.  Returns the thrown error
message, or the value the TS function resolves with together with the
resulting store.

On the no-existing-rollup path the source runs
`return await db.insert(accountCompliance).values({…}).returning()[0];`.
A drizzle insert builder executes its SQL only when the builder itself is
awaited (it is a lazy thenable); here the builder is indexed with `[0]`
first, which reads a nonexistent property, and `await undefined` is
`undefined`.  The insert statement is therefore never executed: no
`account_compliance` row is written and the function resolves with
`undefined` (modelled as `none`).  Everywhere else the file uses the
working idiom `const [row] = await db.insert(…).returning()`. -/
def calculateAccountCompliance (accountId standardId now : Nat) (s : Store) :
    Except String (Option AccountCompliance × Store) :=
  match getComplianceStandard s standardId with
  | none => Except.error ("Compliance standard with ID " ++ toString standardId ++ " not found")
  | some _ =>
    match getCloudAccount s accountId with
    | none => Except.error ("Cloud account with ID " ++ toString accountId ++ " not found")
    | some account =>
      let res := getResources s
      let rules := getComplianceRulesForStandard s standardId
      let sk := aggregateResources account now res rules (s, ⟨0, 0, 0, 0⟩)
      let overall := overallStatusOf sk.2
      match getAccountComplianceByAccountAndStandard sk.1 accountId standardId with
      | some existing =>
          let upd := updateAccountCompliance sk.1 existing.id sk.2 now overall
          Except.ok (upd.1, upd.2)
      | none =>
          Except.ok (none, sk.1)

/-- The `.set({...})` object of storage.ts `grantExemption`, applied to one
row when it matches the `where and(eq(resourceId), eq(ruleId))` clause.
drizzle's `mapUpdateSet` drops entries whose value is `undefined`, so when
no `expiryDate` was supplied the `exemption_expiry` column is left at its
previous value rather than being set to NULL. -/
def exemptUpdate (resourceId ruleId : Nat) (reason : String) (expiryDate : Option Nat)
    (exemptedBy now : Nat) (c : ResourceCompliance) : ResourceCompliance :=
  if c.resourceId == resourceId && c.ruleId == ruleId then
    { c with
      status := "exempted"
      exemptionReason := some reason
      exemptionExpiry := match expiryDate with
        | some d => some d
        | none => c.exemptionExpiry
      exemptedBy := some exemptedBy
      exemptedAt := some now }
  else c

/-- storage.ts `grantExemption`: look up the (resourceId, ruleId) row; if
absent return `undefined` without touching the store; otherwise update
every matching row and return the first updated row. -/
def grantExemption (resourceId ruleId : Nat) (reason : String) (expiryDate : Option Nat)
    (exemptedBy now : Nat) (s : Store) : Option ResourceCompliance × Store :=
  match getResourceComplianceByResourceAndRule s resourceId ruleId with
  | none => (none, s)
  | some _ =>
    let rows := s.resourceCompliance.map
      (exemptUpdate resourceId ruleId reason expiryDate exemptedBy now)
    ((rows.filter (fun c => c.resourceId == resourceId && c.ruleId == ruleId)).head?,
     { s with resourceCompliance := rows })

/-- routes.ts `POST /compliance/exemptions`: 400 when a required body field
is missing or falsy (JS truthiness: the number 0 and the empty string are
falsy), 404 when `grantExemption` returns `undefined`, else 200.  Returns
the HTTP status together with the resulting store. -/
def postComplianceExemption (resourceId ruleId : Nat) (reason : String)
    (expiryDate : Option Nat) (exemptedBy now : Nat) (s : Store) : Nat × Store :=
  if resourceId = 0 ∨ ruleId = 0 ∨ reason = "" ∨ exemptedBy = 0 then
    (400, s)
  else
    match grantExemption resourceId ruleId reason expiryDate exemptedBy now s with
    | (none, s1) => (404, s1)
    | (some _, s1) => (200, s1)

/-- `needle.isPrefixOf hay` on character lists, written out structurally. -/
def seqStartsWith : List Char → List Char → Bool
  | _, [] => true
  | [], _ :: _ => false
  | c :: cs, d :: ds => (c == d) && seqStartsWith cs ds

/-- substring test on character lists -/
def seqContains : List Char → List Char → Bool
  | [], needle => needle.isEmpty
  | c :: rest, needle => seqStartsWith (c :: rest) needle || seqContains rest needle

/-- JS `hay.includes(needle)` on strings. -/
def strContains (hay needle : String) : Bool :=
  seqContains hay.toList needle.toList

/-- `[...new Set(xs)]`: distinct elements, first occurrence order. -/
def uniqList (l : List Nat) : List Nat :=
  l.foldl (fun acc x => if acc.contains x then acc else acc ++ [x]) []

/-- The summary route's provider inference for one resource (routes.ts
`GET /compliance/summary`): the lowercased `metadata.provider` when
present, else substring match of `azure` / `gcp` on the resource's business
identifier, else `aws`. -/
def inferProvider (r : Resource) : String :=
  match r.metadataProvider with
  | some p => p.toLower
  | none =>
    if strContains r.resourceId "azure" then "azure"
    else if strContains r.resourceId "gcp" then "gcp"
    else "aws"

/-- One entry of the summary's `accountEnforcement` array. -/
structure AccountEnforcement where
  accountId : String
  accountName : String
  provider : String
  enforceRulesCount : Nat
  totalRulesCount : Nat
  enforcementPercentage : ℚ
deriving DecidableEq

/-- The JSON object `GET /compliance/summary` responds with.  The
`Record<string, number>` maps `nonCompliantByProvider` and
`nonCompliantBySeverity` are modelled by one field per key, since the
source initialises exactly these keys and only ever increments a key that
already exists. -/
structure ComplianceSummary where
  totalResources : Nat
  compliantResources : Int
  nonCompliantResources : Nat
  compliancePercentage : ℚ
  nonCompliantAws : Nat
  nonCompliantAzure : Nat
  nonCompliantGcp : Nat
  nonCompliantCritical : Nat
  nonCompliantHigh : Nat
  nonCompliantMedium : Nat
  nonCompliantLow : Nat
  enforceRulesByStandard : List (String × Nat)
  accountEnforcement : List AccountEnforcement
  totalEnforceRules : Nat
  totalRules : Nat
deriving DecidableEq

/-- routes.ts `GET /compliance/summary`.  The handler only issues `select`
queries — it contains no insert/update/delete — so the store is returned
unchanged alongside the response.

`resourceComplianceRecords` is the select with
`and(ne(status,"compliant"), ne(status,"not_applicable"), ne(status,"exempted"))`;
`totalNonCompliantResources` is `new Set(records.map(r => r.resourceId)).size`;
`compliancePercentage` is
`totalResources > 0 ? ((total - nonCompliant) / total) * 100 : 100`
in JS number arithmetic, modelled over `ℚ`. -/
def complianceSummaryRoute (s : Store) : Store × ComplianceSummary :=
  let allRules := s.complianceRules
  let allResources := getResources s
  let allAccounts := s.cloudAccounts
  let allStandards := s.complianceStandards
  let enforceRules := allRules.filter (fun r => r.action == "enforce")
  let enforceRulesByStandard := allStandards.map
    (fun std => (std.name, (enforceRules.filter (fun r => r.standardId == std.id)).length))
  let records := s.resourceCompliance.filter
    (fun c => c.status != "compliant" && c.status != "not_applicable" && c.status != "exempted")
  let provCount := fun (p : String) =>
    (allResources.filter
      (fun r => records.any (fun c => c.resourceId == r.id) && inferProvider r == p)).length
  let sevCount := fun (sev : String) =>
    (records.filter (fun c =>
      match allRules.find? (fun ru => ru.id == c.ruleId) with
      | some ru => ru.severity == sev
      | none => false)).length
  let accountEnforcement := allAccounts.map (fun a =>
    let applicable := allRules.filter (fun ru => summaryRuleApplies ru a)
    let enf := applicable.filter (fun ru => ru.action == "enforce")
    { accountId := a.accountId
      accountName := a.name
      provider := a.provider
      enforceRulesCount := enf.length
      totalRulesCount := applicable.length
      enforcementPercentage :=
        if applicable.length > 0 then ((enf.length : ℚ) / (applicable.length : ℚ)) * 100
        else 0 : AccountEnforcement })
  let totalResources := allResources.length
  let totalNonCompliant := (uniqList (records.map (fun c => c.resourceId))).length
  (s,
   { totalResources := totalResources
     compliantResources := (totalResources : Int) - (totalNonCompliant : Int)
     nonCompliantResources := totalNonCompliant
     compliancePercentage :=
       if totalResources > 0 then
         (((totalResources : ℚ) - (totalNonCompliant : ℚ)) / (totalResources : ℚ)) * 100
       else 100
     nonCompliantAws := provCount "aws"
     nonCompliantAzure := provCount "azure"
     nonCompliantGcp := provCount "gcp"
     nonCompliantCritical := sevCount "critical"
     nonCompliantHigh := sevCount "high"
     nonCompliantMedium := sevCount "medium"
     nonCompliantLow := sevCount "low"
     enforceRulesByStandard := enforceRulesByStandard
     accountEnforcement := accountEnforcement
     totalEnforceRules := enforceRules.length
     totalRules := allRules.length })

/-- storage.ts `getNonCompliantResources`.  The `accountId` parameter is
accepted (the route forwards the query parameter) and — as in the source —
never used in the body.  For the rules query the source chains a second
`.where(eq(standardId))` onto the builder; the model conjoins the two
conditions (whether the second `.where` conjoins or replaces the first is
output-equivalent here, because the final per-resource filter intersects
with `relevantRuleIds ⊆ ruleIds` anyway). -/
def getNonCompliantResources (accountId : Option Nat) (standardId : Option Nat) (s : Store) :
    List (Resource × List ComplianceRule × List ResourceCompliance) :=
  let _ := accountId
  let complianceEntries := s.resourceCompliance.filter (fun c => c.status == "non_compliant")
  if complianceEntries.isEmpty then []
  else
    let resourceIds := uniqList (complianceEntries.map (fun c => c.resourceId))
    let resourceList := s.resources.filter (fun r => resourceIds.contains r.id)
    if resourceList.isEmpty then []
    else
      let ruleIds := uniqList (complianceEntries.map (fun c => c.ruleId))
      let rules := s.complianceRules.filter (fun r =>
        ruleIds.contains r.id &&
          match standardId with
          | some sid => r.standardId == sid
          | none => true)
      resourceList.map (fun resource =>
        let rcs := complianceEntries.filter (fun c => c.resourceId == resource.id)
        let relevantRuleIds := rcs.map (fun c => c.ruleId)
        (resource, rules.filter (fun r => relevantRuleIds.contains r.id), rcs))

/-- The applicability test exactly as claim C2 words it (for comparison
with the aggregator's `ruleApplies`): resource type member of
`resourceTypes`, and empty `providers` treated as matching every
provider. -/
def claimedRuleApplies (rule : ComplianceRule) (r : Resource) (account : CloudAccount) : Bool :=
  rule.resourceTypes.contains r.resourceType &&
    (rule.providers.isEmpty || rule.providers.contains account.provider)

/-- Every stored `resource_compliance.status` is one of the four canonical
values.  This is an invariant of the running system: the schema documents
exactly these four values and every writer in the source (the aggregator's
lazy creation, `grantExemption`, and the seed data) stores one of them. -/
def statusWF (s : Store) : Prop :=
  ∀ c ∈ s.resourceCompliance,
    c.status = "compliant" ∨ c.status = "non_compliant" ∨
    c.status = "exempted" ∨ c.status = "not_applicable"

/-! Concrete fixtures used by witnesses and counterexamples. -/

def sampleStandard : ComplianceStandard :=
  { id := 1, name := "NIST", displayName := "NIST 800-53", version := "1", enabled := true }

def sampleAccount : CloudAccount :=
  { id := 1, accountId := "123456789012", provider := "aws", name := "prod",
    status := "active", ownerEmail := none, createdAt := 0, lastScannedAt := none }

def sampleResource : Resource :=
  { id := 1, resourceId := "i-abc123", resourceType := "EC2", name := "web",
    region := "us-east-1", status := "normal", metadataProvider := none,
    isolated := false, forensicCopy := false, discoveredAt := 0 }

/-- A rule whose `providers` array is empty. -/
def emptyProvidersRule : ComplianceRule :=
  { id := 1, standardId := 1, ruleId := "R-1", title := "encrypt volumes",
    severity := "high", resourceTypes := ["EC2"], action := "notify",
    enabled := true, providers := [] }

def awsEc2Rule : ComplianceRule :=
  { id := 1, standardId := 1, ruleId := "R-1", title := "encrypt volumes",
    severity := "critical", resourceTypes := ["EC2"], action := "enforce",
    enabled := true, providers := ["aws"] }

def awsS3Rule : ComplianceRule :=
  { id := 2, standardId := 1, ruleId := "R-2", title := "block public access",
    severity := "medium", resourceTypes := ["S3"], action := "notify",
    enabled := true, providers := ["aws"] }

/-- One account and one standard, one EC2 resource, one rule with an empty
provider set, no compliance rows. -/
def c2Store : Store :=
  { resources := [sampleResource], cloudAccounts := [sampleAccount],
    complianceStandards := [sampleStandard], complianceRules := [emptyProvidersRule],
    resourceCompliance := [], accountCompliance := [], nextRcId := 1 }

/-- One account and one standard, one EC2 resource, one applicable rule, no
compliance rows yet. -/
def freshStore : Store :=
  { resources := [sampleResource], cloudAccounts := [sampleAccount],
    complianceStandards := [sampleStandard], complianceRules := [awsEc2Rule],
    resourceCompliance := [], accountCompliance := [], nextRcId := 1 }

/-- `freshStore` after one aggregator run: the lazily created
`resource_compliance` row exists, but no `account_compliance` row does. -/
def freshStoreAfter : Store :=
  { freshStore with
    resourceCompliance :=
      [{ id := 1, resourceId := 1, ruleId := 1, status := "non_compliant",
         lastChecked := 0, detailsMessage := some "Initial compliance check",
         exemptionReason := none, exemptionExpiry := none,
         exemptedBy := none, exemptedAt := none }]
    nextRcId := 2 }

/-- One account and one standard and nothing else: 0 resources, 0 rules. -/
def bareStore : Store :=
  { resources := [], cloudAccounts := [sampleAccount],
    complianceStandards := [sampleStandard], complianceRules := [],
    resourceCompliance := [], accountCompliance := [], nextRcId := 1 }

def priorRollup : AccountCompliance :=
  { id := 3, accountId := 1, standardId := 1, compliantRules := 5,
    nonCompliantRules := 2, exemptedRules := 1, notApplicableRules := 0,
    lastScanned := 0, overallStatus := "non_compliant" }

/-- `bareStore` plus a pre-existing rollup row. -/
def rollupStore : Store :=
  { bareStore with accountCompliance := [priorRollup] }

/-- What the aggregator rewrites `priorRollup` to at clock 7 over 0
resources and 0 rules. -/
def updatedRollup : AccountCompliance :=
  { id := 3, accountId := 1, standardId := 1, compliantRules := 0,
    nonCompliantRules := 0, exemptedRules := 0, notApplicableRules := 0,
    lastScanned := 7, overallStatus := "compliant" }

def rollupStoreAfter : Store :=
  { rollupStore with accountCompliance := [updatedRollup] }

/-- One EC2 resource against two rules of the standard (one applicable, one
with a non-matching resource type), no compliance rows. -/
def c3Store : Store :=
  { resources := [sampleResource], cloudAccounts := [sampleAccount],
    complianceStandards := [sampleStandard], complianceRules := [awsEc2Rule, awsS3Rule],
    resourceCompliance := [], accountCompliance := [], nextRcId := 1 }

/-- An already-evaluated compliant row for (resource 1, rule 1). -/
def c5Row : ResourceCompliance :=
  { id := 1, resourceId := 1, ruleId := 1, status := "compliant",
    lastChecked := 0, detailsMessage := none, exemptionReason := none,
    exemptionExpiry := none, exemptedBy := none, exemptedAt := none }

/-- `c3Store` with an existing compliant row for (resource 1, rule 1). -/
def c5Store : Store :=
  { c3Store with resourceCompliance := [c5Row] }

/-- `c3Store` with a row for (resource 1, rule 1) carrying an earlier
exemption whose expiry is set. -/
def c8ExpiryStore : Store :=
  { c3Store with
    resourceCompliance :=
      [{ id := 1, resourceId := 1, ruleId := 1, status := "exempted",
         lastChecked := 0, detailsMessage := none,
         exemptionReason := some "old reason", exemptionExpiry := some 5,
         exemptedBy := some 9, exemptedAt := some 3 }] }

/-- A store with no rows at all. -/
def emptyStore : Store :=
  { resources := [], cloudAccounts := [], complianceStandards := [],
    complianceRules := [], resourceCompliance := [], accountCompliance := [],
    nextRcId := 1 }

/-! Helper lemmas about the aggregator loop. -/

theorem tallyStatus_total_of_canonical {st : String}
    (h : st = "compliant" ∨ st = "non_compliant" ∨ st = "exempted" ∨ st = "not_applicable")
    (k : Counts) : (tallyStatus st k).total = k.total + 1 := by
  rcases h with h | h | h | h <;> subst h <;>
    simp [tallyStatus, Counts.total] <;> omega

theorem evalPair_statusWF (account : CloudAccount) (now : Nat) (r : Resource)
    (rule : ComplianceRule) (sk : Store × Counts) (hwf : statusWF sk.1) :
    statusWF (evalPair account now r rule sk).1 := by
  unfold evalPair
  by_cases h : ruleApplies rule r account
  · simp only [h, if_true]
    cases hf : getResourceComplianceByResourceAndRule sk.1 r.id rule.id with
    | none =>
        intro c hc
        rcases List.mem_append.1 hc with hc | hc
        · exact hwf c hc
        · simp at hc
          subst hc
          right; left; rfl
    | some c => exact hwf
  · simp only [h, if_false]
    exact hwf

theorem evalPair_total (account : CloudAccount) (now : Nat) (r : Resource)
    (rule : ComplianceRule) (sk : Store × Counts) (hwf : statusWF sk.1) :
    ((evalPair account now r rule sk).2).total = sk.2.total + 1 := by
  unfold evalPair
  by_cases h : ruleApplies rule r account
  · simp only [h, if_true]
    cases hf : getResourceComplianceByResourceAndRule sk.1 r.id rule.id with
    | none => simp [Counts.total]; omega
    | some c =>
        have hc : c ∈ sk.1.resourceCompliance := List.mem_of_find?_eq_some hf
        exact tallyStatus_total_of_canonical (hwf c hc) sk.2
  · simp only [h, if_false]
    simp [Counts.total]; omega

theorem aggregateRules_invariant (account : CloudAccount) (now : Nat) (r : Resource)
    (rules : List ComplianceRule) :
    ∀ sk : Store × Counts, statusWF sk.1 →
      statusWF (aggregateRules account now r rules sk).1 ∧
      ((aggregateRules account now r rules sk).2).total = sk.2.total + rules.length := by
  induction rules with
  | nil =>
      intro sk hwf
      exact ⟨hwf, rfl⟩
  | cons rule rest ih =>
      intro sk hwf
      have hstep : aggregateRules account now r (rule :: rest) sk =
          aggregateRules account now r rest (evalPair account now r rule sk) := by
        simp [aggregateRules]
      rw [hstep]
      have h1 := evalPair_statusWF account now r rule sk hwf
      have h2 := evalPair_total account now r rule sk hwf
      have h3 := ih (evalPair account now r rule sk) h1
      refine ⟨h3.1, ?_⟩
      rw [h3.2, h2]
      simp [List.length_cons]
      omega

theorem aggregateResources_invariant (account : CloudAccount) (now : Nat)
    (rules : List ComplianceRule) (resources : List Resource) :
    ∀ sk : Store × Counts, statusWF sk.1 →
      statusWF (aggregateResources account now resources rules sk).1 ∧
      ((aggregateResources account now resources rules sk).2).total =
        sk.2.total + resources.length * rules.length := by
  induction resources with
  | nil =>
      intro sk hwf
      exact ⟨hwf, by simp [aggregateResources]⟩
  | cons r rest ih =>
      intro sk hwf
      have hstep : aggregateResources account now (r :: rest) rules sk =
          aggregateResources account now rest rules (aggregateRules account now r rules sk) := by
        simp [aggregateResources]
      rw [hstep]
      have h1 := aggregateRules_invariant account now r rules sk hwf
      have h3 := ih (aggregateRules account now r rules sk) h1.1
      refine ⟨h3.1, ?_⟩
      rw [h3.2, h1.2]
      simp [List.length_cons, Nat.succ_mul]
      omega

theorem updateAccountCompliance_head_fields (s : Store) (id : Nat) (k : Counts) (now : Nat)
    (overall : String) (r : AccountCompliance)
    (h : (updateAccountCompliance s id k now overall).1 = some r) :
    r.compliantRules = k.compliant ∧ r.nonCompliantRules = k.nonCompliant ∧
    r.exemptedRules = k.exempted ∧ r.notApplicableRules = k.notApplicable ∧
    r.lastScanned = now ∧ r.overallStatus = overall := by
  unfold updateAccountCompliance at h
  simp only at h
  set upd := fun (a : AccountCompliance) =>
    if a.id == id then
      { a with
        compliantRules := k.compliant
        nonCompliantRules := k.nonCompliant
        exemptedRules := k.exempted
        notApplicableRules := k.notApplicable
        lastScanned := now
        overallStatus := overall }
    else a with hupd
  have hmem : r ∈ (s.accountCompliance.map upd).filter (fun a => a.id == id) := by
    cases hl : (s.accountCompliance.map upd).filter (fun a => a.id == id) with
    | nil => rw [hl] at h; simp at h
    | cons a t =>
        rw [hl] at h
        simp at h
        subst h
        exact List.mem_cons_self a t
  have hr := List.mem_filter.1 hmem
  obtain ⟨a, _, ha⟩ := List.mem_map.1 hr.1
  by_cases hid : a.id == id
  · rw [hupd] at ha
    simp only [hid, if_true] at ha
    subst ha
    exact ⟨rfl, rfl, rfl, rfl, rfl, rfl⟩
  · rw [hupd] at ha
    simp only [hid] at ha
    simp at ha
    subst ha
    exact absurd hr.2 (by simp at hid ⊢; exact hid)

theorem overallStatusOf_eq_compliant_iff (k : Counts) :
    overallStatusOf k = "compliant" ↔ k.nonCompliant = 0 := by
  unfold overallStatusOf
  by_cases h : k.nonCompliant = 0
  · simp [h]
  · simp [h]

theorem aggregateRules_nil (account : CloudAccount) (now : Nat) (r : Resource)
    (sk : Store × Counts) : aggregateRules account now r [] sk = sk := rfl

theorem aggregateResources_nil_rules (account : CloudAccount) (now : Nat)
    (resources : List Resource) (sk : Store × Counts) :
    aggregateResources account now resources [] sk = sk := by
  induction resources with
  | nil => rfl
  | cons r rest ih =>
      have hstep : aggregateResources account now (r :: rest) [] sk =
          aggregateResources account now rest [] (aggregateRules account now r [] sk) := by
        simp [aggregateResources]
      rw [hstep, aggregateRules_nil]
      exact ih

/-! Claim theorems. -/

/-- Claim C1, amended.  Whenever an aggregator run returns an
`AccountCompliance` row — which happens exactly when a rollup row already
existed, since the fresh-insert branch never executes its insert and
resolves with `undefined` — that row's `overallStatus` is `"compliant"`
iff its `nonCompliantRules` count is 0; and with 0 resources or 0 rules
for the standard any returned row has all four counts 0 and status
`"compliant"`. -/
theorem calculateAccountCompliance_zero_tolerance (accountId standardId now : Nat)
    (s : Store) (optRow : Option AccountCompliance) (s2 : Store)
    (h : calculateAccountCompliance accountId standardId now s = Except.ok (optRow, s2)) :
    (∀ r, optRow = some r → (r.overallStatus = "compliant" ↔ r.nonCompliantRules = 0)) ∧
    ((getResources s = [] ∨ getComplianceRulesForStandard s standardId = []) →
      ∀ r, optRow = some r →
        r.overallStatus = "compliant" ∧ r.compliantRules = 0 ∧ r.nonCompliantRules = 0 ∧
        r.exemptedRules = 0 ∧ r.notApplicableRules = 0) := by
  unfold calculateAccountCompliance at h
  cases hstd : getComplianceStandard s standardId with
  | none => rw [hstd] at h; exact absurd h (by simp)
  | some std =>
  rw [hstd] at h
  cases hacct : getCloudAccount s accountId with
  | none => rw [hacct] at h; exact absurd h (by simp)
  | some account =>
  rw [hacct] at h
  simp only at h
  cases hex : getAccountComplianceByAccountAndStandard
      (aggregateResources account now (getResources s)
        (getComplianceRulesForStandard s standardId) (s, ⟨0, 0, 0, 0⟩)).1
      accountId standardId with
  | none =>
      rw [hex] at h
      simp only [Except.ok.injEq, Prod.mk.injEq] at h
      obtain ⟨h1, -⟩ := h
      subst h1
      exact ⟨fun r hr => by simp at hr, fun _ r hr => by simp at hr⟩
  | some existing =>
      rw [hex] at h
      simp only [Except.ok.injEq, Prod.mk.injEq] at h
      obtain ⟨h1, -⟩ := h
      constructor
      · intro r hr
        rw [← h1] at hr
        have hf := updateAccountCompliance_head_fields _ _ _ _ _ _ hr
        rw [hf.2.2.2.2.2, hf.2.1]
        exact overallStatusOf_eq_compliant_iff _
      · intro hempty r hr
        rw [← h1] at hr
        have hf := updateAccountCompliance_head_fields _ _ _ _ _ _ hr
        rcases hempty with he | he
        · rw [he] at hf
          simp only [aggregateResources] at hf
          simp only [List.foldl_nil] at hf
          refine ⟨?_, hf.1, hf.2.1, hf.2.2.1, hf.2.2.2.1⟩
          rw [hf.2.2.2.2.2]
          rfl
        · rw [he] at hf
          rw [aggregateResources_nil_rules] at hf
          refine ⟨?_, hf.1, hf.2.1, hf.2.2.1, hf.2.2.2.1⟩
          rw [hf.2.2.2.2.2]
          rfl

/-- Witness for C1: on `rollupStore` (pre-existing rollup row, 0 resources
and 0 rules) the run at clock 7 returns `updatedRollup`, and the
zero-tolerance iff holds for it. -/
theorem calculateAccountCompliance_zero_tolerance_witness :
    updatedRollup.overallStatus = "compliant" ↔ updatedRollup.nonCompliantRules = 0 :=
  (calculateAccountCompliance_zero_tolerance 1 1 7 rollupStore (some updatedRollup)
    rollupStoreAfter rfl).1 updatedRollup rfl

/-- Counterexample for C1 as stated.  On `bareStore` — account and standard
present, 0 resources, 0 rules, no prior rollup — the claim predicts a
resulting AccountCompliance with overallStatus `"compliant"`, but the run
returns no AccountCompliance value at all (`undefined` in the source,
because `db.insert(…).returning()[0]` indexes the lazy insert builder
instead of awaiting it) and writes no rollup row. -/
theorem calculateAccountCompliance_fresh_store_returns_no_row :
    calculateAccountCompliance 1 1 0 bareStore = Except.ok (none, bareStore) := rfl

/-- Claim C2, amended.  In the aggregator a rule is applicable iff the
resource's type is in `rule.resourceTypes` AND the account's provider is in
`rule.providers` — an empty provider set matches no provider.  Only the
summary route's `accountEnforcement` computation treats an empty provider
set as applying to every provider. -/
theorem ruleApplies_characterisation :
    ∀ (rule : ComplianceRule) (r : Resource) (account : CloudAccount),
      (ruleApplies rule r account = true ↔
        r.resourceType ∈ rule.resourceTypes ∧ account.provider ∈ rule.providers) ∧
      (summaryRuleApplies rule account = true ↔
        (rule.providers = [] ∨ account.provider ∈ rule.providers)) := by
  intro rule r account
  constructor
  · simp [ruleApplies]
  · simp [summaryRuleApplies, List.isEmpty_iff]

/-- Counterexample for C2 as stated: a rule with an empty `providers` array
and a matching resource type.  The claim calls it applicable; the
aggregator treats it as not applicable (its run tallies the pair as
`not_applicable` and creates no compliance row). -/
theorem ruleApplies_empty_providers_counterexample :
    claimedRuleApplies emptyProvidersRule sampleResource sampleAccount = true ∧
    ruleApplies emptyProvidersRule sampleResource sampleAccount = false ∧
    aggregateResources sampleAccount 0 [sampleResource] [emptyProvidersRule]
      (c2Store, ⟨0, 0, 0, 0⟩) = (c2Store, ⟨0, 0, 0, 1⟩) := by
  refine ⟨rfl, rfl, by decide⟩

/-- Claim C3.  Under the system invariant that stored statuses are
canonical, the aggregator's four counters sum to
`resources.length × rules.length`, and so do the four count fields of any
AccountCompliance row the run returns. -/
theorem aggregate_counts_sum (accountId standardId now : Nat) (s : Store)
    (account : CloudAccount) (hacct : getCloudAccount s accountId = some account)
    (hwf : statusWF s) :
    (((aggregateResources account now (getResources s)
        (getComplianceRulesForStandard s standardId) (s, ⟨0, 0, 0, 0⟩)).2).compliant +
      ((aggregateResources account now (getResources s)
        (getComplianceRulesForStandard s standardId) (s, ⟨0, 0, 0, 0⟩)).2).nonCompliant +
      ((aggregateResources account now (getResources s)
        (getComplianceRulesForStandard s standardId) (s, ⟨0, 0, 0, 0⟩)).2).exempted +
      ((aggregateResources account now (getResources s)
        (getComplianceRulesForStandard s standardId) (s, ⟨0, 0, 0, 0⟩)).2).notApplicable =
      (getResources s).length * (getComplianceRulesForStandard s standardId).length) ∧
    (∀ (optRow : Option AccountCompliance) (s2 : Store) (r : AccountCompliance),
      calculateAccountCompliance accountId standardId now s = Except.ok (optRow, s2) →
      optRow = some r →
      r.compliantRules + r.nonCompliantRules + r.exemptedRules + r.notApplicableRules =
        (getResources s).length * (getComplianceRulesForStandard s standardId).length) := by
  have hinv := aggregateResources_invariant account now
    (getComplianceRulesForStandard s standardId) (getResources s) (s, ⟨0, 0, 0, 0⟩) hwf
  have hsum := hinv.2
  constructor
  · simpa [Counts.total] using hsum
  · intro optRow s2 r h hr
    unfold calculateAccountCompliance at h
    cases hstd : getComplianceStandard s standardId with
    | none => rw [hstd] at h; exact absurd h (by simp)
    | some std =>
    rw [hstd] at h
    rw [hacct] at h
    simp only at h
    cases hex : getAccountComplianceByAccountAndStandard
        (aggregateResources account now (getResources s)
          (getComplianceRulesForStandard s standardId) (s, ⟨0, 0, 0, 0⟩)).1
        accountId standardId with
    | none =>
        rw [hex] at h
        simp only [Except.ok.injEq, Prod.mk.injEq] at h
        obtain ⟨h1, -⟩ := h
        rw [← h1] at hr
        simp at hr
    | some existing =>
        rw [hex] at h
        simp only [Except.ok.injEq, Prod.mk.injEq] at h
        obtain ⟨h1, -⟩ := h
        rw [← h1] at hr
        have hf := updateAccountCompliance_head_fields _ _ _ _ _ _ hr
        rw [hf.1, hf.2.1, hf.2.2.1, hf.2.2.2.1]
        simpa [Counts.total] using hsum

/-- Witness for C3: one EC2 resource against two rules (one applicable, one
of mismatched resource type): the counters sum to 1 × 2. -/
theorem aggregate_counts_sum_witness :
    ((aggregateResources sampleAccount 0 (getResources c3Store)
        (getComplianceRulesForStandard c3Store 1) (c3Store, ⟨0, 0, 0, 0⟩)).2).compliant +
      ((aggregateResources sampleAccount 0 (getResources c3Store)
        (getComplianceRulesForStandard c3Store 1) (c3Store, ⟨0, 0, 0, 0⟩)).2).nonCompliant +
      ((aggregateResources sampleAccount 0 (getResources c3Store)
        (getComplianceRulesForStandard c3Store 1) (c3Store, ⟨0, 0, 0, 0⟩)).2).exempted +
      ((aggregateResources sampleAccount 0 (getResources c3Store)
        (getComplianceRulesForStandard c3Store 1) (c3Store, ⟨0, 0, 0, 0⟩)).2).notApplicable =
      (getResources c3Store).length * (getComplianceRulesForStandard c3Store 1).length :=
  (aggregate_counts_sum 1 1 0 c3Store sampleAccount rfl
    (fun c hc => absurd hc (List.not_mem_nil c))).1

/-- Claim C4.  For an applicable pair with no existing row, one evaluation
step appends exactly one row — keys of the pair, status `"non_compliant"`,
`lastChecked = now`, details message `"Initial compliance check"`, exemption
columns NULL — and bumps the `non_compliant` tally by one. -/
theorem evalPair_creates_default_row (account : CloudAccount) (now : Nat) (r : Resource)
    (rule : ComplianceRule) (s : Store) (k : Counts)
    (h0 : getResourceComplianceByResourceAndRule s r.id rule.id = none)
    (h1 : ruleApplies rule r account = true) :
    s.resourceCompliance.filter (fun c => c.resourceId == r.id && c.ruleId == rule.id) = [] ∧
    evalPair account now r rule (s, k) =
      ({ s with
         resourceCompliance := s.resourceCompliance ++
           [{ id := s.nextRcId, resourceId := r.id, ruleId := rule.id,
              status := "non_compliant", lastChecked := now,
              detailsMessage := some "Initial compliance check",
              exemptionReason := none, exemptionExpiry := none,
              exemptedBy := none, exemptedAt := none }]
         nextRcId := s.nextRcId + 1 },
       { k with nonCompliant := k.nonCompliant + 1 }) := by
  constructor
  · rw [List.filter_eq_nil_iff]
    intro c hc
    have := List.find?_eq_none.1 h0 c hc
    simpa using this
  · unfold evalPair
    simp only [h1, if_true, h0]
    rfl

/-- Witness for C4 at a concrete applicable pair with no prior row. -/
theorem evalPair_creates_default_row_witness :
    c3Store.resourceCompliance.filter
      (fun c => c.resourceId == sampleResource.id && c.ruleId == awsEc2Rule.id) = [] ∧
    evalPair sampleAccount 9 sampleResource awsEc2Rule (c3Store, ⟨0, 0, 0, 0⟩) =
      ({ c3Store with
         resourceCompliance := c3Store.resourceCompliance ++
           [{ id := c3Store.nextRcId, resourceId := sampleResource.id, ruleId := awsEc2Rule.id,
              status := "non_compliant", lastChecked := 9,
              detailsMessage := some "Initial compliance check",
              exemptionReason := none, exemptionExpiry := none,
              exemptedBy := none, exemptedAt := none }]
         nextRcId := c3Store.nextRcId + 1 },
       { (⟨0, 0, 0, 0⟩ : Counts) with nonCompliant := 0 + 1 }) :=
  evalPair_creates_default_row sampleAccount 9 sampleResource awsEc2Rule c3Store
    ⟨0, 0, 0, 0⟩ rfl rfl

/-- Claim C5.  Once a row exists for the pair, a further evaluation step
leaves the store — in particular that row and its status — completely
unchanged: the stored status is only read and tallied (or the pair is
tallied `not_applicable` if the rule does not apply). -/
theorem evalPair_existing_row (account : CloudAccount) (now : Nat) (r : Resource)
    (rule : ComplianceRule) (s : Store) (k : Counts) (c : ResourceCompliance)
    (h : getResourceComplianceByResourceAndRule s r.id rule.id = some c) :
    evalPair account now r rule (s, k) =
      (s, if ruleApplies rule r account then tallyStatus c.status k
          else { k with notApplicable := k.notApplicable + 1 }) := by
  unfold evalPair
  by_cases ha : ruleApplies rule r account
  · simp [ha, h]
  · simp [ha]

/-- Witness for C5 at a concrete pair whose row is already compliant. -/
theorem evalPair_existing_row_witness :
    evalPair sampleAccount 3 sampleResource awsEc2Rule (c5Store, ⟨0, 0, 0, 0⟩) =
      (c5Store,
       if ruleApplies awsEc2Rule sampleResource sampleAccount then
         tallyStatus c5Row.status ⟨0, 0, 0, 0⟩
       else { (⟨0, 0, 0, 0⟩ : Counts) with notApplicable := 0 + 1 }) :=
  evalPair_existing_row sampleAccount 3 sampleResource awsEc2Rule c5Store
    ⟨0, 0, 0, 0⟩ c5Row rfl

/-- Claim C6 (code bug), evaluated at a failing input.  `freshStore` has an
account, a standard, one resource and one applicable rule, and no rollup
row.  The first aggregator run lazily creates the `resource_compliance` row
(`freshStoreAfter`) but inserts no `account_compliance` row and returns no
value, because `db.insert(…).returning()[0]` indexes the drizzle insert
builder — a lazy thenable that executes only when awaited — so the insert
statement never runs.  A second run does the same: after any number of
runs the `account_compliance` table is still empty, where the claim says
exactly one upserted row exists. -/
theorem calculateAccountCompliance_insert_never_executes :
    calculateAccountCompliance 1 1 0 freshStore = Except.ok (none, freshStoreAfter) ∧
    freshStoreAfter.accountCompliance = [] ∧
    calculateAccountCompliance 1 1 5 freshStoreAfter = Except.ok (none, freshStoreAfter) := by
  refine ⟨rfl, rfl, rfl⟩

/-- Claim C7.  With no existing row for the pair, `grantExemption` returns
`undefined` and leaves the store untouched, and the route (with all
required fields present and truthy) answers 404 with the store untouched. -/
theorem grantExemption_missing_row_not_found (rid rlid : Nat) (reason : String)
    (expiry : Option Nat) (uid now : Nat) (s : Store)
    (h : getResourceComplianceByResourceAndRule s rid rlid = none)
    (h1 : rid ≠ 0) (h2 : rlid ≠ 0) (h3 : reason ≠ "") (h4 : uid ≠ 0) :
    grantExemption rid rlid reason expiry uid now s = (none, s) ∧
    postComplianceExemption rid rlid reason expiry uid now s = (404, s) := by
  have hg : grantExemption rid rlid reason expiry uid now s = (none, s) := by
    unfold grantExemption
    rw [h]
  refine ⟨hg, ?_⟩
  unfold postComplianceExemption
  rw [if_neg (by tauto), hg]

/-- Witness for C7 on a store with no compliance rows. -/
theorem grantExemption_missing_row_not_found_witness :
    grantExemption 1 1 "approved by security team" none 2 0 bareStore = (none, bareStore) ∧
    postComplianceExemption 1 1 "approved by security team" none 2 0 bareStore =
      (404, bareStore) :=
  grantExemption_missing_row_not_found 1 1 "approved by security team" none 2 0 bareStore
    rfl (by decide) (by decide) (by decide) (by decide)

/-- Claim C8, amended.  When a row exists for the pair, granting an
exemption — regardless of the row's prior status — returns an updated row
and sets, on every matching row, `status = "exempted"`,
`exemptionReason = reason`, `exemptedBy = userId`, `exemptedAt = now`, and
`exemptionExpiry = expiry` whenever an expiry is supplied; when no expiry
is supplied the `exemption_expiry` column is left at its previous value
(drizzle drops `undefined` entries from an update set) rather than being
cleared to NULL.  Non-matching rows and the row count are unchanged. -/
theorem grantExemption_overwrites_fields (rid rlid : Nat) (reason : String)
    (expiry : Option Nat) (uid now : Nat) (s : Store) (c : ResourceCompliance)
    (h : getResourceComplianceByResourceAndRule s rid rlid = some c) :
    ((grantExemption rid rlid reason expiry uid now s).1.isSome = true) ∧
    (∀ r, (grantExemption rid rlid reason expiry uid now s).1 = some r →
      r.status = "exempted" ∧ r.exemptionReason = some reason ∧
      r.exemptedBy = some uid ∧ r.exemptedAt = some now ∧
      ∀ e, expiry = some e → r.exemptionExpiry = some e) ∧
    (∀ row ∈ (grantExemption rid rlid reason expiry uid now s).2.resourceCompliance,
      row.resourceId = rid → row.ruleId = rlid →
      row.status = "exempted" ∧ row.exemptionReason = some reason ∧
      row.exemptedBy = some uid ∧ row.exemptedAt = some now ∧
      ∀ e, expiry = some e → row.exemptionExpiry = some e) ∧
    (∀ row ∈ (grantExemption rid rlid reason expiry uid now s).2.resourceCompliance,
      ¬(row.resourceId = rid ∧ row.ruleId = rlid) → row ∈ s.resourceCompliance) ∧
    ((grantExemption rid rlid reason expiry uid now s).2.resourceCompliance.length =
      s.resourceCompliance.length) ∧
    (expiry = none →
      (grantExemption rid rlid reason expiry uid now s).2.resourceCompliance.map
          ResourceCompliance.exemptionExpiry =
        s.resourceCompliance.map ResourceCompliance.exemptionExpiry) := by
  have hout : grantExemption rid rlid reason expiry uid now s =
      (((s.resourceCompliance.map
          (exemptUpdate rid rlid reason expiry uid now)).filter
            (fun c => c.resourceId == rid && c.ruleId == rlid)).head?,
       { s with resourceCompliance := s.resourceCompliance.map (exemptUpdate rid rlid reason expiry uid now) }) := by
    unfold grantExemption
    rw [h]
  unfold getResourceComplianceByResourceAndRule at h
  have hfields : ∀ a : ResourceCompliance,
      ∀ b : ResourceCompliance, exemptUpdate rid rlid reason expiry uid now a = b →
      b.resourceId = rid → b.ruleId = rlid →
      b.status = "exempted" ∧ b.exemptionReason = some reason ∧
      b.exemptedBy = some uid ∧ b.exemptedAt = some now ∧
      ∀ e, expiry = some e → b.exemptionExpiry = some e := by
    intro a b hab hb1 hb2
    unfold exemptUpdate at hab
    by_cases hpa : (a.resourceId == rid && a.ruleId == rlid) = true
    · rw [if_pos hpa] at hab
      subst hab
      refine ⟨rfl, rfl, rfl, rfl, ?_⟩
      intro e he
      subst he
      rfl
    · rw [if_neg hpa] at hab
      subst hab
      exact absurd (by simp [hb1, hb2]) hpa
  rw [hout]
  refine ⟨?_, ?_, ?_, ?_, ?_, ?_⟩
  · have hc : c ∈ s.resourceCompliance := List.mem_of_find?_eq_some h
    have hpc0 := List.find?_some h
    have hpc : (c.resourceId == rid && c.ruleId == rlid) = true := hpc0
    have hmem : exemptUpdate rid rlid reason expiry uid now c ∈
        s.resourceCompliance.map (exemptUpdate rid rlid reason expiry uid now) :=
      List.mem_map_of_mem _ hc
    have hpc2 : ((exemptUpdate rid rlid reason expiry uid now c).resourceId == rid &&
        (exemptUpdate rid rlid reason expiry uid now c).ruleId == rlid) = true := by
      unfold exemptUpdate
      by_cases hp : (c.resourceId == rid && c.ruleId == rlid) = true
      · rw [if_pos hp]
        exact hp
      · rw [if_neg hp]
        exact hpc
    have hmf : exemptUpdate rid rlid reason expiry uid now c ∈
        (s.resourceCompliance.map (exemptUpdate rid rlid reason expiry uid now)).filter
          (fun c => c.resourceId == rid && c.ruleId == rlid) :=
      List.mem_filter.2 ⟨hmem, hpc2⟩
    cases hl : (s.resourceCompliance.map (exemptUpdate rid rlid reason expiry uid now)).filter
        (fun c => c.resourceId == rid && c.ruleId == rlid) with
    | nil => rw [hl] at hmf; simp at hmf
    | cons x t => simp
  · intro r hr
    have hmem : r ∈ (s.resourceCompliance.map
        (exemptUpdate rid rlid reason expiry uid now)).filter
          (fun c => c.resourceId == rid && c.ruleId == rlid) := by
      cases hl : (s.resourceCompliance.map (exemptUpdate rid rlid reason expiry uid now)).filter
          (fun c => c.resourceId == rid && c.ruleId == rlid) with
      | nil => rw [hl] at hr; simp at hr
      | cons x t =>
          rw [hl] at hr
          simp at hr
          subst hr
          exact List.mem_cons_self x t
    have hf := List.mem_filter.1 hmem
    obtain ⟨a, -, ha⟩ := List.mem_map.1 hf.1
    have hp := hf.2
    simp only [Bool.and_eq_true, beq_iff_eq] at hp
    exact hfields a r ha hp.1 hp.2
  · intro row hrow h1 h2
    obtain ⟨a, -, ha⟩ := List.mem_map.1 hrow
    exact hfields a row ha h1 h2
  · intro row hrow hnp
    obtain ⟨a, hamem, ha⟩ := List.mem_map.1 hrow
    unfold exemptUpdate at ha
    by_cases hp : (a.resourceId == rid && a.ruleId == rlid) = true
    · rw [if_pos hp] at ha
      subst ha
      simp only [Bool.and_eq_true, beq_iff_eq] at hp
      exact absurd ⟨hp.1, hp.2⟩ hnp
    · rw [if_neg hp] at ha
      subst ha
      exact hamem
  · simp
  · intro he
    subst he
    rw [List.map_map]
    apply List.map_congr_left
    intro a _
    show (exemptUpdate rid rlid reason none uid now a).exemptionExpiry = a.exemptionExpiry
    unfold exemptUpdate
    by_cases hp : (a.resourceId == rid && a.ruleId == rlid) = true
    · rw [if_pos hp]
    · rw [if_neg hp]

/-- Witness for C8: granting an exemption over a previously *compliant*
row succeeds (returns an updated row). -/
theorem grantExemption_overwrites_fields_witness :
    (grantExemption 1 1 "approved" (some 99) 2 50 c5Store).1.isSome = true :=
  (grantExemption_overwrites_fields 1 1 "approved" (some 99) 2 50 c5Store c5Row rfl).1

/-- Counterexample for C8 as stated: re-granting an exemption with no
expiry over a row whose earlier exemption had expiry 5.  The claim says the
stored expiry becomes NULL; the code leaves it at 5, because the update set
maps `exemptionExpiry` to `undefined` and drizzle drops `undefined`
entries. -/
theorem grantExemption_expiry_not_cleared :
    ((grantExemption 1 1 "new reason" none 2 50 c8ExpiryStore).1.map
      ResourceCompliance.exemptionExpiry) = some (some 5) := rfl

/-- Claim C9.  The summary route writes nothing (the store component of its
result is the input store); the reported `compliancePercentage` equals
`(total − nonCompliant) / total × 100` with 100 at total = 0; and on a
fully empty store it returns the all-zero summary with percentage 100. -/
theorem complianceSummary_read_only_and_percentage :
    (∀ s : Store, (complianceSummaryRoute s).1 = s) ∧
    (∀ s : Store, (complianceSummaryRoute s).2.compliancePercentage =
      (if (complianceSummaryRoute s).2.totalResources > 0 then
        ((((complianceSummaryRoute s).2.totalResources : ℚ) -
            ((complianceSummaryRoute s).2.nonCompliantResources : ℚ)) /
          ((complianceSummaryRoute s).2.totalResources : ℚ)) * 100
      else 100)) ∧
    (complianceSummaryRoute emptyStore).2 =
      { totalResources := 0, compliantResources := 0, nonCompliantResources := 0,
        compliancePercentage := 100, nonCompliantAws := 0, nonCompliantAzure := 0,
        nonCompliantGcp := 0, nonCompliantCritical := 0, nonCompliantHigh := 0,
        nonCompliantMedium := 0, nonCompliantLow := 0, enforceRulesByStandard := [],
        accountEnforcement := [], totalEnforceRules := 0, totalRules := 0 } := by
  refine ⟨fun s => rfl, fun s => rfl, rfl⟩

/-- Claim C10.  `getNonCompliantResources` never reads its `accountId`
argument, so for every store and standard filter the result is identical
for any two account filters (including an absent one). -/
theorem getNonCompliantResources_independent_of_accountId :
    ∀ (a1 a2 standardId : Option Nat) (s : Store),
      getNonCompliantResources a1 standardId s = getNonCompliantResources a2 standardId s :=
  fun _ _ _ _ => rfl

end Nkase
